import Mathlib

/-!
Shallow embedding of the verification orchestrator of parity-bitcoin
(src/verification/src/chain_verifier.rs and
src/verification/src/consensus_limits.rs).

The orchestrator sequences structural pre-verification, store-based origin
classification and contextual acceptance.  The downstream checkers, the
acceptors and the store are external capabilities in the source (they live
in other crates); here they are fields of an explicit capability record, so
that the orchestrator itself is a total function of the block, the limits
policy, the store contents and those capabilities.  Store interactions and
capability invocations are additionally recorded in an event trace, so that
claims about which interactions happen on which path are statable.

Rust panics (assert_eq! and unreachable!) are modelled as a distinct
RunResult.fatal outcome, separate from the typed error channel.
-/

set_option autoImplicit false

namespace PbtcVerification

/-- 256-bit hashes are modelled as natural numbers; the orchestrator only
moves them around and compares them for equality. -/
abbrev H256 := Nat

/-- Raw block header (chain crate).  The orchestrator treats the fields
opaquely; they are listed for completeness of the data model. -/
structure BlockHeader where
  version : Nat
  previous_header_hash : H256
  merkle_root_hash : H256
  time : Nat
  bits : Nat
  nonce : Nat
deriving DecidableEq, Repr

/-- Indexed header: raw header together with its content hash. -/
structure IndexedBlockHeader where
  hash : H256
  raw : BlockHeader
deriving DecidableEq, Repr

/-- IndexedBlockHeader::new(hash, header). -/
def IndexedBlockHeader.new (hash : H256) (raw : BlockHeader) : IndexedBlockHeader :=
  { hash := hash, raw := raw }

/-- Reference to a previously created output: source transaction id and
output index. -/
structure OutPoint where
  hash : H256
  index : Nat
deriving DecidableEq, Repr

/-- Transaction input, referencing a previous output. -/
structure TransactionInput where
  previous_output : OutPoint
  script_sig : List Nat
  sequence : Nat
deriving DecidableEq, Repr

/-- Transaction output: value and spending condition (opaque script bytes). -/
structure TransactionOutput where
  value : Nat
  script_pubkey : List Nat
deriving DecidableEq, Repr

/-- Raw transaction (chain crate). -/
structure Transaction where
  version : Nat
  inputs : List TransactionInput
  outputs : List TransactionOutput
  lock_time : Nat
deriving DecidableEq, Repr

/-- Indexed transaction: raw transaction together with its content hash. -/
structure IndexedTransaction where
  hash : H256
  raw : Transaction
deriving DecidableEq, Repr

/-- Indexed block: indexed header plus ordered transactions. -/
structure IndexedBlock where
  header : IndexedBlockHeader
  transactions : List IndexedTransaction
deriving DecidableEq, Repr

/-- CanonBlock wraps the indexed block currently being accepted. -/
structure CanonBlock where
  block : IndexedBlock
deriving DecidableEq, Repr

/-- CanonBlock::new(block). -/
def CanonBlock.new (block : IndexedBlock) : CanonBlock := { block := block }

/-- CanonTransaction wraps the indexed transaction currently being accepted. -/
structure CanonTransaction where
  tx : IndexedTransaction
deriving DecidableEq, Repr

/-- CanonTransaction::new(tx). -/
def CanonTransaction.new (tx : IndexedTransaction) : CanonTransaction := { tx := tx }

/-- Network identifier (network crate, Magic). -/
inductive Magic where
  | Mainnet
  | Testnet
  | Regtest
  | Unitest
deriving DecidableEq, Repr

/-- Soft-fork deployments state; constructed once per orchestrator instance
and read-only from the point of view of a verification call.  Its content is
opaque to the orchestrator. -/
structure Deployments where
deriving DecidableEq, Repr

/-- Deployments::new(). -/
def Deployments.new : Deployments := {}

/-- Modelled from the spec: the verification error taxonomy (the error crate
is not among the sources).  Variants follow the error kinds named by the
spec and exercised by the tests in src: store-contract violations are a
distinct Database kind, per-transaction violations carry the offending
transaction index. -/
inductive DBError where
  | UnknownParent
  | InconsistentData
deriving DecidableEq, Repr

/-- Modelled from the spec: per-transaction rule violations (error crate not
among the sources); Maturity and Overspend appear in the tests in src,
UnknownReference is the "no such output exists" failure of the mempool
acceptance path. -/
inductive TransactionError where
  | Maturity
  | Overspend
  | UnknownReference
deriving DecidableEq, Repr

/-- Modelled from the spec: block verification errors (error crate not among
the sources); the variants are the ones exercised by the tests in src. -/
inductive Error where
  | Database (e : DBError)
  | Transaction (index : Nat) (e : TransactionError)
  | MaximumSigops
  | CoinbaseOverspend (expected_max : Nat) (actual : Nat)
deriving DecidableEq, Repr

/-- The two fatal conditions the orchestrator can raise: an assert_eq!
mismatch on the best-block invariant, and the unreachable!() KnownBlock
branch. -/
inductive FatalKind where
  | assertionFailed
  | unreachableCode
deriving DecidableEq, Repr

/-- Outcome of running a verification entry point: a value, a typed error,
or a fatal condition (a Rust panic). -/
inductive RunResult (ε : Type) (α : Type) where
  | ok (a : α)
  | err (e : ε)
  | fatal (k : FatalKind)
deriving DecidableEq, Repr

/-- Best block of the store: hash and number. -/
structure BestBlock where
  hash : H256
  number : Nat
deriving DecidableEq, Repr

/-- Modelled from the spec: the side-chain origin descriptor produced by the
store classification (db crate, not among the sources); it carries enough
information (branch point, block number) to materialize a read view of the
branch.  The orchestrator reads only block_number and treats the rest
opaquely. -/
structure SideChainOrigin where
  branch_point : H256
  block_number : Nat
deriving DecidableEq, Repr

/-- The four-way origin classification returned by the store. -/
inductive BlockOrigin where
  | KnownBlock
  | CanonChain (block_number : Nat)
  | SideChain (origin : SideChainOrigin)
  | SideChainBecomingCanonChain (origin : SideChainOrigin)
deriving DecidableEq, Repr

/-- Modelled from the spec: the prevout-provider capability
(TransactionOutputProvider, db crate): resolves a referenced output given
its source transaction id and index, or reports absence. -/
abbrev TransactionOutputProvider := OutPoint → Option TransactionOutput

/-- Transaction meta data kept by the store for a confirmed transaction
(height of confirmation, coinbase flag); opaque to the orchestrator. -/
structure TransactionMeta where
  height : Nat
  coinbase : Bool
deriving DecidableEq, Repr

/-- Store capability resolving transaction meta data by transaction id. -/
abbrev TransactionMetaProvider := H256 → Option TransactionMeta

/-- Store capability resolving block headers by number. -/
abbrev BlockHeaderProvider := Nat → Option BlockHeader

/-- The store capability record (SharedStore).  fork returns the read view
of the requested branch (ForkChain.store() in the source); the view type is
a parameter because the orchestrator passes views to the acceptor opaquely. -/
structure Store (View : Type) where
  best_block : BestBlock
  block_hash : Nat → Option H256
  block_origin : IndexedBlockHeader → Except Error BlockOrigin
  fork : SideChainOrigin → Except Error View
  as_store : View
  as_transaction_meta_provider : TransactionMetaProvider
  as_block_header_provider : BlockHeaderProvider

/-- The ConsensusLimits trait object (src/verification/src/consensus_limits.rs):
a policy value exposing three numeric ceilings.  A trait object is its three
accessor results; the accessors of every impl in the source are pure, so a
record of the three values is the extensional content of
ConsensusLimitsRef (Arc of the trait object). -/
structure ConsensusLimits where
  max_block_sigops : Nat
  max_block_size : Nat
  max_transaction_size : Nat
deriving DecidableEq, Repr

/-- const LEGACY_MAX_BLOCK_SIZE: usize = 1_000_000. -/
def LEGACY_MAX_BLOCK_SIZE : Nat := 1000000

/-- const LEGACY_MAX_BLOCK_SIGOPS: usize = 20_000. -/
def LEGACY_MAX_BLOCK_SIGOPS : Nat := 20000

/-- pub struct LegacyLimits: the default (legacy) limits policy; it has no
fields and is immutable once constructed. -/
structure LegacyLimits where
deriving DecidableEq, Repr

/-- LegacyLimits::new(). -/
def LegacyLimits.new : LegacyLimits := {}

/-- impl ConsensusLimits for LegacyLimits: max_block_sigops. -/
def LegacyLimits.max_block_sigops (_self : LegacyLimits) : Nat := LEGACY_MAX_BLOCK_SIGOPS

/-- impl ConsensusLimits for LegacyLimits: max_block_size. -/
def LegacyLimits.max_block_size (_self : LegacyLimits) : Nat := LEGACY_MAX_BLOCK_SIZE

/-- impl ConsensusLimits for LegacyLimits: max_transaction_size. -/
def LegacyLimits.max_transaction_size (_self : LegacyLimits) : Nat := LEGACY_MAX_BLOCK_SIZE

/-- The trait-object view of a LegacyLimits value (what an
Arc of LegacyLimits coerced to ConsensusLimitsRef exposes). -/
def LegacyLimits.asConsensusLimits (self : LegacyLimits) : ConsensusLimits :=
  { max_block_sigops := self.max_block_sigops
    max_block_size := self.max_block_size
    max_transaction_size := self.max_transaction_size }

/-- The external capabilities the orchestrator invokes: the captured
wall-clock instant, the structural checkers, the contextual acceptors and
the transaction hash function.  Each field mirrors the constructor
arguments of the corresponding checker in the source, with check() applied. -/
structure Externals (View : Type) where
  get_time : Nat
  chain_verifier_check : IndexedBlock → Magic → Nat → ConsensusLimits → Except Error Unit
  header_verifier_check : IndexedBlockHeader → Magic → Nat → Except Error Unit
  chain_acceptor_check : View → Magic → CanonBlock → Nat → Deployments → ConsensusLimits → Except Error Unit
  tx_hash : Transaction → H256
  tx_verifier_check : IndexedTransaction → ConsensusLimits → Except TransactionError Unit
  tx_acceptor_check : TransactionMetaProvider → TransactionOutputProvider → Magic →
    CanonTransaction → Nat → Nat → Deployments → BlockHeaderProvider → Nat →
    Except TransactionError Unit

/-- Trace events of one verify_block run, recording every store interaction
and capability invocation with the arguments the claims are about: the
structural pre-verification call (with the limits it received), each
best_block read, each block_hash lookup, the origin classification call,
each fork-view request, and the contextual acceptance call (with the store
view, block number and limits it received). -/
inductive Event (View : Type) where
  | preverify (limits : ConsensusLimits)
  | bestBlock
  | blockHash (number : Nat)
  | blockOrigin
  | fork (origin : SideChainOrigin)
  | accept (view : View) (block_number : Nat) (limits : ConsensusLimits)
deriving DecidableEq

/-- The orchestrator state (BackwardsCompatibleChainVerifier): store handle,
network identifier and deployments state. -/
structure BackwardsCompatibleChainVerifier (View : Type) where
  store : Store View
  network : Magic
  deployments : Deployments

/-- The trace of the assert_eq! best-block invariant check
(line 40 and line 69 of chain_verifier.rs): best_block() is read on the
left, then best_block().number feeds a block_hash lookup on the right. -/
def assertTrace {View : Type} (self : BackwardsCompatibleChainVerifier View) :
    List (Event View) :=
  [Event.bestBlock, Event.bestBlock, Event.blockHash self.store.best_block.number]

/-- The condition of that assert_eq!: the reported best-block hash agrees
with the number-to-hash mapping at the best-block number. -/
def bestBlockInvariant {View : Type} (self : BackwardsCompatibleChainVerifier View) : Prop :=
  some self.store.best_block.hash = self.store.block_hash self.store.best_block.number

instance {View : Type} (self : BackwardsCompatibleChainVerifier View) :
    Decidable (bestBlockInvariant self) := by
  unfold bestBlockInvariant; infer_instance

/-- Lifts the outcome of a checker (propagated with the ? operator in the
source) into the run outcome. -/
def acceptToRunResult : Except Error Unit → RunResult Error Unit
  | Except.error e => RunResult.err e
  | Except.ok _ => RunResult.ok ()

/-- The origin dispatch of verify_block (the match on block_origin, lines
43-67 of chain_verifier.rs): KnownBlock is unreachable!(); CanonChain
accepts against the direct store view at the given block number; the two
side-chain arms are textually identical in the source — each requests the
forked view for the origin descriptor and accepts against it at the origin
block number.  Returns the outcome of the arm together with the store and
acceptance events it performs. -/
def verifyBlockDispatch {View : Type} (ext : Externals View)
    (self : BackwardsCompatibleChainVerifier View)
    (block : IndexedBlock) (limits : ConsensusLimits) :
    BlockOrigin → RunResult Error Unit × List (Event View)
  | BlockOrigin.KnownBlock =>
    (RunResult.fatal FatalKind.unreachableCode, [])
  | BlockOrigin.CanonChain block_number =>
    let canon_block := CanonBlock.new block
    (acceptToRunResult (ext.chain_acceptor_check self.store.as_store self.network
       canon_block block_number self.deployments limits),
     [Event.accept self.store.as_store block_number limits])
  | BlockOrigin.SideChain origin =>
    let block_number := origin.block_number
    match self.store.fork origin with
    | Except.error e => (RunResult.err e, [Event.fork origin])
    | Except.ok fork =>
      let canon_block := CanonBlock.new block
      (acceptToRunResult (ext.chain_acceptor_check fork self.network canon_block
         block_number self.deployments limits),
       [Event.fork origin, Event.accept fork block_number limits])
  | BlockOrigin.SideChainBecomingCanonChain origin =>
    let block_number := origin.block_number
    match self.store.fork origin with
    | Except.error e => (RunResult.err e, [Event.fork origin])
    | Except.ok fork =>
      let canon_block := CanonBlock.new block
      (acceptToRunResult (ext.chain_acceptor_check fork self.network canon_block
         block_number self.deployments limits),
       [Event.fork origin, Event.accept fork block_number limits])

/-- The tail of verify_block after the origin dispatch (lines 68-70 of
chain_verifier.rs): an error or fatal outcome of the dispatch is propagated
as is (the ? operator), while on a successful acceptance the best-block
invariant is asserted again before Ok(()) is returned; either way the
events of the dispatched arm follow the events performed before it. -/
def verifyBlockFinalize {View : Type} (self : BackwardsCompatibleChainVerifier View)
    (pre : List (Event View)) :
    RunResult Error Unit × List (Event View) → RunResult Error Unit × List (Event View)
  | (RunResult.ok _, evs) =>
    if bestBlockInvariant self then
      (RunResult.ok (), pre ++ [Event.blockOrigin] ++ evs ++ assertTrace self)
    else
      (RunResult.fatal FatalKind.assertionFailed,
       pre ++ [Event.blockOrigin] ++ evs ++ assertTrace self)
  | (r, evs) => (r, pre ++ [Event.blockOrigin] ++ evs)

/-- BackwardsCompatibleChainVerifier::verify_block, instrumented with its
event trace.  Faithful to chain_verifier.rs lines 34-71: capture the time,
run structural pre-verification, assert the best-block invariant, classify
the origin, dispatch on the origin, and re-assert the invariant after the
dispatched acceptance succeeds. -/
def verify_block {View : Type} (ext : Externals View)
    (self : BackwardsCompatibleChainVerifier View)
    (block : IndexedBlock) (limits : ConsensusLimits) :
    RunResult Error Unit × List (Event View) :=
  let current_time := ext.get_time
  match ext.chain_verifier_check block self.network current_time limits with
  | Except.error e => (RunResult.err e, [Event.preverify limits])
  | Except.ok _ =>
    let pre := Event.preverify limits :: assertTrace self
    if bestBlockInvariant self then
      match self.store.block_origin block.header with
      | Except.error e => (RunResult.err e, pre ++ [Event.blockOrigin])
      | Except.ok block_origin =>
        verifyBlockFinalize self pre (verifyBlockDispatch ext self block limits block_origin)
    else
      (RunResult.fatal FatalKind.assertionFailed, pre)

/-- impl Verify for BackwardsCompatibleChainVerifier: the public entry point
calls verify_block, emits a trace log (logging carries no semantics here)
and returns the result. -/
def verify {View : Type} (ext : Externals View)
    (self : BackwardsCompatibleChainVerifier View)
    (block : IndexedBlock) (limits : ConsensusLimits) :
    RunResult Error Unit × List (Event View) :=
  let result := verify_block ext self block limits
  result

/-- BackwardsCompatibleChainVerifier::verify_block_header: header-only
pre-verification.  The block-header-provider argument is unused in the
source (named with a leading underscore there); only the captured time, the
network and the header verifier capability are consulted. -/
def verify_block_header {View : Type} (ext : Externals View)
    (self : BackwardsCompatibleChainVerifier View)
    (_block_header_provider : BlockHeaderProvider)
    (hash : H256) (header : BlockHeader) : Except Error Unit :=
  let current_time := ext.get_time
  let iheader := IndexedBlockHeader.new hash header
  ext.header_verifier_check iheader self.network current_time

/-- Modelled from the spec: NoopStore (duplex_store.rs is not among the
sources): the no-op resolver that always reports no such output. -/
def NoopStore : TransactionOutputProvider := fun _ => none

/-- Modelled from the spec: DuplexTransactionOutputProvider (duplex_store.rs
is not among the sources): resolves a previous output by consulting the
first provider and falling back to the second. -/
def DuplexTransactionOutputProvider (first second : TransactionOutputProvider) :
    TransactionOutputProvider :=
  fun outpoint =>
    match first outpoint with
    | some output => some output
    | none => second outpoint

/-- Trace events of one verify_mempool_transaction run: the structural
transaction pre-verification call (with the limits it received) and the
contextual acceptance call (with the output resolver, the target height and
time, and the sigops ceiling it received). -/
inductive TxEvent where
  | preverify (limits : ConsensusLimits)
  | accept (output_store : TransactionOutputProvider) (height : Nat) (time : Nat)
      (max_block_sigops : Nat)

/-- BackwardsCompatibleChainVerifier::verify_mempool_transaction,
instrumented with its event trace.  Faithful to chain_verifier.rs lines
87-116: index the transaction, run structural pre-verification, build the
duplex resolver over the caller-supplied prevout provider with a no-op
fallback, and run contextual acceptance with the store-backed meta and
header providers and the sigops ceiling of the limits policy. -/
def verify_mempool_transaction {View : Type} (ext : Externals View)
    (self : BackwardsCompatibleChainVerifier View)
    (prevout_provider : TransactionOutputProvider)
    (height : Nat) (time : Nat) (transaction : Transaction)
    (limits : ConsensusLimits) :
    Except TransactionError Unit × List TxEvent :=
  let indexed_tx : IndexedTransaction := { hash := ext.tx_hash transaction, raw := transaction }
  match ext.tx_verifier_check indexed_tx limits with
  | Except.error e => (Except.error e, [TxEvent.preverify limits])
  | Except.ok _ =>
    let canon_tx := CanonTransaction.new indexed_tx
    let noop := NoopStore
    let output_store := DuplexTransactionOutputProvider prevout_provider noop
    let r := ext.tx_acceptor_check self.store.as_transaction_meta_provider output_store
      self.network canon_tx height time self.deployments
      self.store.as_block_header_provider limits.max_block_sigops
    (r, [TxEvent.preverify limits,
         TxEvent.accept output_store height time limits.max_block_sigops])

/-- Modelled from the spec: the contextual mempool transaction acceptance
capability (accept_transaction.rs is not among the sources), restricted to
the prevout-resolution aspect the spec pins down: verification "must fail
(not silently pass) when no such mempool-local or chain-confirmed output
exists", so every referenced output must resolve through the output store
it is given. -/
def specMempoolTxAcceptCheck : TransactionMetaProvider → TransactionOutputProvider → Magic →
    CanonTransaction → Nat → Nat → Deployments → BlockHeaderProvider → Nat →
    Except TransactionError Unit :=
  fun _meta output_store _network canon_tx _height _time _deployments _headers _sigops =>
    if canon_tx.tx.raw.inputs.all (fun input => (output_store input.previous_output).isSome)
    then Except.ok ()
    else Except.error TransactionError.UnknownReference

/-- Concrete sample header used by the witnesses. -/
def sampleHeader : BlockHeader :=
  { version := 1, previous_header_hash := 7, merkle_root_hash := 2, time := 3,
    bits := 4, nonce := 5 }

/-- Concrete sample indexed header used by the witnesses. -/
def sampleIndexedHeader : IndexedBlockHeader := { hash := 10, raw := sampleHeader }

/-- Concrete sample block used by the witnesses. -/
def sampleBlock : IndexedBlock := { header := sampleIndexedHeader, transactions := [] }

/-- Concrete sample limits policy used by the witnesses. -/
def sampleLimits : ConsensusLimits :=
  { max_block_sigops := 20000, max_block_size := 1000000, max_transaction_size := 1000000 }

/-- Concrete sample side-chain origin descriptor used by the witnesses. -/
def sampleOrigin : SideChainOrigin := { branch_point := 3, block_number := 9 }

/-- Concrete sample store over the unit view type, parameterized by the
origin classification it returns; its best-block bookkeeping is consistent
(hash 100 at number 5). -/
def sampleStore (origin : Except Error BlockOrigin) : Store Unit :=
  { best_block := { hash := 100, number := 5 }
    block_hash := fun n => if n = 5 then some 100 else none
    block_origin := fun _ => origin
    fork := fun _ => Except.ok ()
    as_store := ()
    as_transaction_meta_provider := fun _ => none
    as_block_header_provider := fun _ => none }

/-- Concrete sample orchestrator over the sample store. -/
def sampleVerifier (origin : Except Error BlockOrigin) :
    BackwardsCompatibleChainVerifier Unit :=
  { store := sampleStore origin, network := Magic.Unitest, deployments := Deployments.new }

/-- A second concrete sample store with visibly different contents (different
best block, different number-to-hash mapping, a stored body for the sample
block), used to witness store independence. -/
def sampleStoreAlt : Store Unit :=
  { best_block := { hash := 200, number := 8 }
    block_hash := fun n => if n = 8 then some 200 else none
    block_origin := fun _ => Except.ok BlockOrigin.KnownBlock
    fork := fun _ => Except.error (Error.Database DBError.InconsistentData)
    as_store := ()
    as_transaction_meta_provider := fun _ => some { height := 1, coinbase := true }
    as_block_header_provider := fun _ => some sampleHeader }

/-- Concrete sample orchestrator over the second sample store. -/
def sampleVerifierAlt : BackwardsCompatibleChainVerifier Unit :=
  { store := sampleStoreAlt, network := Magic.Unitest, deployments := Deployments.new }

/-- Concrete sample capability record in which every checker passes. -/
def sampleExternals : Externals Unit :=
  { get_time := 1000
    chain_verifier_check := fun _ _ _ _ => Except.ok ()
    header_verifier_check := fun _ _ _ => Except.ok ()
    chain_acceptor_check := fun _ _ _ _ _ _ => Except.ok ()
    tx_hash := fun _ => 42
    tx_verifier_check := fun _ _ => Except.ok ()
    tx_acceptor_check := fun _ _ _ _ _ _ _ _ _ => Except.ok () }

/-- Concrete sample outpoint used by the mempool witnesses. -/
def sampleOutPoint : OutPoint := { hash := 50, index := 0 }

/-- Concrete sample transaction spending the sample outpoint. -/
def sampleTransaction : Transaction :=
  { version := 1
    inputs := [{ previous_output := sampleOutPoint, script_sig := [], sequence := 0 }]
    outputs := [{ value := 10, script_pubkey := [] }]
    lock_time := 0 }

/-- Concrete sample prevout provider resolving exactly the sample outpoint
(an unconfirmed mempool-local output). -/
def sampleProvider : TransactionOutputProvider :=
  fun outpoint =>
    if outpoint = sampleOutPoint then some { value := 10, script_pubkey := [] } else none

/-- Holds of a verify_block event when any limits value it carries is the
given one: the structural pre-verification and contextual acceptance events
record the limits they received, the pure store-read events carry none. -/
def eventLimitsOk {View : Type} (limits : ConsensusLimits) : Event View → Prop
  | Event.preverify l => l = limits
  | Event.accept _ _ l => l = limits
  | _ => True

/-! Helper lemmas shared by the claim theorems. -/

theorem acceptToRunResult_ne_fatal (r : Except Error Unit) (k : FatalKind) :
    acceptToRunResult r ≠ RunResult.fatal k := by
  cases r <;> simp [acceptToRunResult]

theorem acceptToRunResult_ok_iff (r : Except Error Unit) :
    acceptToRunResult r = RunResult.ok () ↔ r = Except.ok () := by
  cases r <;> simp [acceptToRunResult]

theorem verifyBlockDispatch_unreachable_iff {View : Type} (ext : Externals View)
    (self : BackwardsCompatibleChainVerifier View) (block : IndexedBlock)
    (limits : ConsensusLimits) (origin : BlockOrigin) :
    (verifyBlockDispatch ext self block limits origin).1
        = RunResult.fatal FatalKind.unreachableCode
      ↔ origin = BlockOrigin.KnownBlock := by
  cases origin with
  | KnownBlock => simp [verifyBlockDispatch]
  | CanonChain bn => simp [verifyBlockDispatch, acceptToRunResult_ne_fatal]
  | SideChain o =>
    simp only [verifyBlockDispatch]
    cases hf : self.store.fork o <;> simp [acceptToRunResult_ne_fatal]
  | SideChainBecomingCanonChain o =>
    simp only [verifyBlockDispatch]
    cases hf : self.store.fork o <;> simp [acceptToRunResult_ne_fatal]

theorem verifyBlockFinalize_unreachable_iff {View : Type}
    (self : BackwardsCompatibleChainVerifier View) (pre : List (Event View))
    (d : RunResult Error Unit × List (Event View)) :
    (verifyBlockFinalize self pre d).1 = RunResult.fatal FatalKind.unreachableCode
      ↔ d.1 = RunResult.fatal FatalKind.unreachableCode := by
  rcases d with ⟨r, evs⟩
  cases r with
  | ok a => simp only [verifyBlockFinalize]; split <;> simp
  | err e => simp [verifyBlockFinalize]
  | fatal k => simp [verifyBlockFinalize]

theorem verifyBlockFinalize_fst_ok_iff {View : Type}
    (self : BackwardsCompatibleChainVerifier View) (pre : List (Event View))
    (d : RunResult Error Unit × List (Event View)) :
    (verifyBlockFinalize self pre d).1 = RunResult.ok ()
      ↔ d.1 = RunResult.ok () ∧ bestBlockInvariant self := by
  rcases d with ⟨r, evs⟩
  cases r with
  | ok a => simp only [verifyBlockFinalize]; split <;> simp_all
  | err e => simp [verifyBlockFinalize]
  | fatal k => simp [verifyBlockFinalize]

theorem verifyBlockFinalize_snd_of_ok {View : Type}
    (self : BackwardsCompatibleChainVerifier View) (pre : List (Event View))
    (d : RunResult Error Unit × List (Event View)) (h : d.1 = RunResult.ok ()) :
    (verifyBlockFinalize self pre d).2 = pre ++ [Event.blockOrigin] ++ d.2 ++ assertTrace self := by
  rcases d with ⟨r, evs⟩
  cases r with
  | ok a => simp only [verifyBlockFinalize]; split <;> rfl
  | err e => simp at h
  | fatal k => simp at h

theorem verifyBlockDispatch_ok_accept {View : Type} (ext : Externals View)
    (self : BackwardsCompatibleChainVerifier View) (block : IndexedBlock)
    (limits : ConsensusLimits) (origin : BlockOrigin)
    (h : (verifyBlockDispatch ext self block limits origin).1 = RunResult.ok ()) :
    ∃ view block_number,
      Event.accept view block_number limits ∈ (verifyBlockDispatch ext self block limits origin).2 := by
  cases origin with
  | KnownBlock => simp [verifyBlockDispatch] at h
  | CanonChain bn => exact ⟨self.store.as_store, bn, by simp [verifyBlockDispatch]⟩
  | SideChain o =>
    simp only [verifyBlockDispatch] at h ⊢
    cases hf : self.store.fork o with
    | error e => rw [hf] at h; simp at h
    | ok view => exact ⟨view, o.block_number, by simp⟩
  | SideChainBecomingCanonChain o =>
    simp only [verifyBlockDispatch] at h ⊢
    cases hf : self.store.fork o with
    | error e => rw [hf] at h; simp at h
    | ok view => exact ⟨view, o.block_number, by simp⟩

/-! Claim theorems. -/

/-- C6: the default (legacy) ConsensusLimits policy returns exactly
max_block_size = 1000000, max_block_sigops = 20000 and
max_transaction_size = 1000000 on every call; the accessors are pure
functions of an immutable value (they are Lean functions of the policy
value, so they have no side effects by construction), and the trait-object
view of any LegacyLimits value is the constant record of those three
ceilings. -/
theorem claim_C6_legacy_limits_ceilings (self : LegacyLimits) :
    self.max_block_size = 1000000 ∧
    self.max_block_sigops = 20000 ∧
    self.max_transaction_size = 1000000 ∧
    self.asConsensusLimits =
      { max_block_sigops := 20000, max_block_size := 1000000,
        max_transaction_size := 1000000 } :=
  ⟨rfl, rfl, rfl, rfl⟩

/-- C10: the public Verify-trait entry point returns exactly the outcome of
the internal verify_block computation (the wrapper only emits a trace log,
which carries no semantics); result and event trace are both unchanged. -/
theorem claim_C10_verify_is_verify_block {View : Type} (ext : Externals View)
    (self : BackwardsCompatibleChainVerifier View)
    (block : IndexedBlock) (limits : ConsensusLimits) :
    verify ext self block limits = verify_block ext self block limits := rfl

/-- C2: for every origin descriptor o, the SideChain and
SideChainBecomingCanonChain cases are handled identically: the two whole
verify_block runs coincide (outcome and full event trace) when the store
classifies the block as one rather than the other, the two dispatch arms
are the same function of o, and on a successful fork request the dispatch
trace shows exactly one fork request for o followed by one acceptance
against the returned view at the block number of o.  The embedded store
interface is read-only, so no reorg commitment is representable in either
arm. -/
theorem claim_C2_side_chain_cases_identical {View : Type} (ext : Externals View)
    (self : BackwardsCompatibleChainVerifier View)
    (block : IndexedBlock) (limits : ConsensusLimits) (o : SideChainOrigin) :
    (verify_block ext
        { self with store :=
            { self.store with block_origin := fun _ => Except.ok (BlockOrigin.SideChain o) } }
        block limits
      = verify_block ext
        { self with store :=
            { self.store with block_origin :=
                fun _ => Except.ok (BlockOrigin.SideChainBecomingCanonChain o) } }
        block limits) ∧
    (verifyBlockDispatch ext self block limits (BlockOrigin.SideChain o)
      = verifyBlockDispatch ext self block limits (BlockOrigin.SideChainBecomingCanonChain o)) ∧
    (∀ view, self.store.fork o = Except.ok view →
      (verifyBlockDispatch ext self block limits (BlockOrigin.SideChain o)).2
        = [Event.fork o, Event.accept view o.block_number limits]) := by
  refine ⟨rfl, rfl, ?_⟩
  intro view hfork
  simp only [verifyBlockDispatch]
  rw [hfork]

/-- Witness for C2, at a concrete store whose fork request for the sample
origin descriptor succeeds with the unit view. -/
theorem claim_C2_witness :
    (verifyBlockDispatch sampleExternals
        (sampleVerifier (Except.ok (BlockOrigin.SideChain sampleOrigin)))
        sampleBlock sampleLimits (BlockOrigin.SideChain sampleOrigin)).2
      = [Event.fork sampleOrigin, Event.accept () sampleOrigin.block_number sampleLimits] :=
  (claim_C2_side_chain_cases_identical sampleExternals
    (sampleVerifier (Except.ok (BlockOrigin.SideChain sampleOrigin)))
    sampleBlock sampleLimits sampleOrigin).2.2 () rfl

/-- C3: when structural pre-verification fails, verify_block returns that
error immediately and its event trace records no store interaction at all:
no best-block read, no number-to-hash lookup, no origin classification, no
fork request and no contextual acceptance — the trace is exactly the
pre-verification call. -/
theorem claim_C3_structural_failure_is_storeless {View : Type} (ext : Externals View)
    (self : BackwardsCompatibleChainVerifier View)
    (block : IndexedBlock) (limits : ConsensusLimits) (e : Error)
    (hpre : ext.chain_verifier_check block self.network ext.get_time limits = Except.error e) :
    verify_block ext self block limits = (RunResult.err e, [Event.preverify limits]) := by
  simp only [verify_block]
  rw [hpre]

/-- Witness for C3, at a concrete capability record whose structural check
rejects with the maximum-sigops error. -/
theorem claim_C3_witness :
    verify_block
        { sampleExternals with
          chain_verifier_check := fun _ _ _ _ => Except.error Error.MaximumSigops }
        (sampleVerifier (Except.ok (BlockOrigin.CanonChain 6))) sampleBlock sampleLimits
      = (RunResult.err Error.MaximumSigops, [Event.preverify sampleLimits]) :=
  claim_C3_structural_failure_is_storeless _ _ _ _ _ rfl

/-- C7: header-only pre-verification never consults chain state: for the
same capability record (same captured time and same header checker), the
same hash and the same header, any two orchestrators that agree on the
network identifier return the identical outcome whatever their stores
contain (in particular whether or not the block body is stored), and
whatever block-header provider is passed (that argument is ignored by the
source). -/
theorem claim_C7_header_verification_store_independent {View : Type}
    (ext : Externals View)
    (v1 v2 : BackwardsCompatibleChainVerifier View)
    (p1 p2 : BlockHeaderProvider) (hash : H256) (header : BlockHeader)
    (hnet : v1.network = v2.network) :
    verify_block_header ext v1 p1 hash header = verify_block_header ext v2 p2 hash header := by
  unfold verify_block_header
  rw [hnet]

/-- Witness for C7: two concrete orchestrators with visibly different store
contents (different best blocks, different classifications, the second one
storing a body and headers) and different provider arguments give the same
header-verification outcome. -/
theorem claim_C7_witness :
    verify_block_header sampleExternals (sampleVerifier (Except.ok BlockOrigin.KnownBlock))
        (fun _ => none) 10 sampleHeader
      = verify_block_header sampleExternals sampleVerifierAlt
        (fun _ => some sampleHeader) 10 sampleHeader :=
  claim_C7_header_verification_store_independent sampleExternals
    (sampleVerifier (Except.ok BlockOrigin.KnownBlock)) sampleVerifierAlt
    (fun _ => none) (fun _ => some sampleHeader) 10 sampleHeader rfl

/-- C1: when the store classification reports that the parent is unknown
(the store-contract "unknown parent" error), verify_block returns exactly
that error, unchanged, and its event trace shows that after the
classification call nothing else happens: no fork view is requested and no
contextual acceptance is attempted. -/
theorem claim_C1_unknown_parent_propagated {View : Type} (ext : Externals View)
    (self : BackwardsCompatibleChainVerifier View)
    (block : IndexedBlock) (limits : ConsensusLimits)
    (hpre : ext.chain_verifier_check block self.network ext.get_time limits = Except.ok ())
    (hinv : bestBlockInvariant self)
    (horigin : self.store.block_origin block.header
      = Except.error (Error.Database DBError.UnknownParent)) :
    verify_block ext self block limits
      = (RunResult.err (Error.Database DBError.UnknownParent),
         Event.preverify limits :: assertTrace self ++ [Event.blockOrigin]) := by
  simp only [verify_block]
  rw [hpre, if_pos hinv, horigin]

/-- Witness for C1, at a concrete store whose classification of the sample
block reports an unknown parent. -/
theorem claim_C1_witness :
    verify_block sampleExternals
        (sampleVerifier (Except.error (Error.Database DBError.UnknownParent)))
        sampleBlock sampleLimits
      = (RunResult.err (Error.Database DBError.UnknownParent),
         Event.preverify sampleLimits
           :: assertTrace (sampleVerifier (Except.error (Error.Database DBError.UnknownParent)))
           ++ [Event.blockOrigin]) :=
  claim_C1_unknown_parent_propagated _ _ _ _ rfl (by decide) rfl

/-- C4: verify_block ends in the fatal unreachable!() outcome exactly when
the run reaches the origin dispatch (structural pre-verification passed and
the best-block invariant holds) and the store classification returns
KnownBlock; in particular the branch is a fatal internal-invariant
violation and not a typed rejection, and under the precondition that the
store never reports KnownBlock the branch is unreachable (the outcome is
never that fatal kind). -/
theorem claim_C4_known_block_fatal_iff {View : Type} (ext : Externals View)
    (self : BackwardsCompatibleChainVerifier View)
    (block : IndexedBlock) (limits : ConsensusLimits) :
    (verify_block ext self block limits).1 = RunResult.fatal FatalKind.unreachableCode
      ↔ ((∃ u, ext.chain_verifier_check block self.network ext.get_time limits = Except.ok u) ∧
         bestBlockInvariant self ∧
         self.store.block_origin block.header = Except.ok BlockOrigin.KnownBlock) := by
  constructor
  · intro h
    simp only [verify_block] at h
    cases hc : ext.chain_verifier_check block self.network ext.get_time limits with
    | error e => rw [hc] at h; simp at h
    | ok u =>
      rw [hc] at h
      by_cases hinv : bestBlockInvariant self
      · rw [if_pos hinv] at h
        cases ho : self.store.block_origin block.header with
        | error e => rw [ho] at h; simp at h
        | ok origin =>
          rw [ho] at h
          have hd := (verifyBlockFinalize_unreachable_iff self _ _).mp h
          have := (verifyBlockDispatch_unreachable_iff ext self block limits origin).mp hd
          subst this
          exact ⟨⟨u, rfl⟩, hinv, rfl⟩
      · rw [if_neg hinv] at h
        simp at h
  · rintro ⟨⟨u, hc⟩, hinv, ho⟩
    simp only [verify_block]
    rw [hc, if_pos hinv, ho]
    rfl

/-- Witness for C4, at a concrete store that (incorrectly) classifies the
sample block as already known: the run ends in the fatal unreachable!()
outcome. -/
theorem claim_C4_witness :
    (verify_block sampleExternals (sampleVerifier (Except.ok BlockOrigin.KnownBlock))
        sampleBlock sampleLimits).1 = RunResult.fatal FatalKind.unreachableCode :=
  (claim_C4_known_block_fatal_iff sampleExternals
    (sampleVerifier (Except.ok BlockOrigin.KnownBlock)) sampleBlock sampleLimits).mpr
    ⟨⟨(), rfl⟩, by decide, rfl⟩

/-- C8: in every run that passes structural pre-verification, the
best-block agreement between the reported hash and the number-to-hash
mapping is checked before origin classification — if it fails there, the
outcome is the fatal assertion failure (not a rejection) and the trace
stops at those reads, with no classification event — and it is read and
checked again after contextual acceptance succeeds: every successful run
trace starts with the invariant reads before the classification event and
ends with the same invariant reads after the dispatch events, which
include the acceptance. -/
theorem claim_C8_best_block_invariant_checked_twice {View : Type} (ext : Externals View)
    (self : BackwardsCompatibleChainVerifier View)
    (block : IndexedBlock) (limits : ConsensusLimits)
    (hpre : ext.chain_verifier_check block self.network ext.get_time limits = Except.ok ()) :
    (¬ bestBlockInvariant self →
      verify_block ext self block limits
        = (RunResult.fatal FatalKind.assertionFailed,
           Event.preverify limits :: assertTrace self)) ∧
    ((verify_block ext self block limits).1 = RunResult.ok () →
      ∃ mid,
        (verify_block ext self block limits).2
          = Event.preverify limits
              :: (assertTrace self ++ [Event.blockOrigin] ++ mid ++ assertTrace self) ∧
        ∃ view block_number, Event.accept view block_number limits ∈ mid) := by
  constructor
  · intro hinv
    simp only [verify_block]
    rw [hpre, if_neg hinv]
  · intro hok
    simp only [verify_block] at hok ⊢
    rw [hpre] at hok ⊢
    by_cases hinv : bestBlockInvariant self
    · rw [if_pos hinv] at hok ⊢
      cases ho : self.store.block_origin block.header with
      | error e => rw [ho] at hok; simp at hok
      | ok origin =>
        rw [ho] at hok
        have hd : (verifyBlockDispatch ext self block limits origin).1 = RunResult.ok () :=
          ((verifyBlockFinalize_fst_ok_iff self _ _).mp hok).1
        refine ⟨(verifyBlockDispatch ext self block limits origin).2, ?_, ?_⟩
        · rw [verifyBlockFinalize_snd_of_ok self _ _ hd]
          simp
        · exact verifyBlockDispatch_ok_accept ext self block limits origin hd
    · rw [if_neg hinv] at hok
      simp at hok

/-- Witness for C8, at a concrete consistent store extending the canon
chain: the successful run exhibits the invariant reads on both sides of the
acceptance. -/
theorem claim_C8_witness :
    ∃ mid,
      (verify_block sampleExternals (sampleVerifier (Except.ok (BlockOrigin.CanonChain 6)))
          sampleBlock sampleLimits).2
        = Event.preverify sampleLimits
            :: (assertTrace (sampleVerifier (Except.ok (BlockOrigin.CanonChain 6)))
                ++ [Event.blockOrigin] ++ mid
                ++ assertTrace (sampleVerifier (Except.ok (BlockOrigin.CanonChain 6)))) ∧
      ∃ view block_number, Event.accept view block_number sampleLimits ∈ mid :=
  (claim_C8_best_block_invariant_checked_twice sampleExternals
    (sampleVerifier (Except.ok (BlockOrigin.CanonChain 6))) sampleBlock sampleLimits
    rfl).2 (by decide)

theorem assertTrace_events_limits {View : Type} (limits : ConsensusLimits)
    (self : BackwardsCompatibleChainVerifier View) :
    ∀ e ∈ assertTrace self, eventLimitsOk limits e := by
  simp [assertTrace, eventLimitsOk]

theorem verifyBlockDispatch_events_limits {View : Type} (ext : Externals View)
    (self : BackwardsCompatibleChainVerifier View) (block : IndexedBlock)
    (limits : ConsensusLimits) (origin : BlockOrigin) :
    ∀ e ∈ (verifyBlockDispatch ext self block limits origin).2, eventLimitsOk limits e := by
  cases origin with
  | KnownBlock => simp [verifyBlockDispatch]
  | CanonChain bn => simp [verifyBlockDispatch, eventLimitsOk]
  | SideChain o =>
    simp only [verifyBlockDispatch]
    cases hf : self.store.fork o <;> simp [eventLimitsOk]
  | SideChainBecomingCanonChain o =>
    simp only [verifyBlockDispatch]
    cases hf : self.store.fork o <;> simp [eventLimitsOk]

theorem verifyBlockFinalize_snd_subset {View : Type}
    (self : BackwardsCompatibleChainVerifier View) (pre : List (Event View))
    (d : RunResult Error Unit × List (Event View)) (e : Event View)
    (h : e ∈ (verifyBlockFinalize self pre d).2) :
    e ∈ pre ∨ e = Event.blockOrigin ∨ e ∈ d.2 ∨ e ∈ assertTrace self := by
  rcases d with ⟨r, evs⟩
  cases r with
  | ok a =>
    simp only [verifyBlockFinalize] at h
    split at h <;> simp only [List.append_assoc, List.mem_append, List.mem_singleton] at h <;>
      tauto
  | err e0 =>
    simp only [verifyBlockFinalize] at h
    simp only [List.append_assoc, List.mem_append, List.mem_singleton] at h
    tauto
  | fatal k =>
    simp only [verifyBlockFinalize] at h
    simp only [List.append_assoc, List.mem_append, List.mem_singleton] at h
    tauto

theorem verify_block_events_limits {View : Type} (ext : Externals View)
    (self : BackwardsCompatibleChainVerifier View) (block : IndexedBlock)
    (limits : ConsensusLimits) :
    ∀ e ∈ (verify_block ext self block limits).2, eventLimitsOk limits e := by
  simp only [verify_block]
  cases hc : ext.chain_verifier_check block self.network ext.get_time limits with
  | error e0 => simp [eventLimitsOk]
  | ok u =>
    by_cases hinv : bestBlockInvariant self
    · rw [if_pos hinv]
      cases ho : self.store.block_origin block.header with
      | error e0 =>
        intro e he
        simp only [List.mem_append, List.mem_cons, List.mem_singleton,
          List.not_mem_nil, or_false] at he
        rcases he with (rfl | he) | rfl
        · rfl
        · exact assertTrace_events_limits limits self e he
        · trivial
      | ok origin =>
        intro e he
        rcases verifyBlockFinalize_snd_subset self _ _ e he with hp | rfl | hd | ha
        · rcases List.mem_cons.mp hp with rfl | hp
          · rfl
          · exact assertTrace_events_limits limits self e hp
        · trivial
        · exact verifyBlockDispatch_events_limits ext self block limits origin e hd
        · exact assertTrace_events_limits limits self e ha
    · rw [if_neg hinv]
      intro e he
      rcases List.mem_cons.mp he with rfl | hp
      · rfl
      · exact assertTrace_events_limits limits self e hp

/-- C9: within one verification call the limits policy is one consistent
snapshot: in every verify_block run, every recorded structural
pre-verification call and every recorded contextual acceptance call carries
exactly the limits value the call was given; and in every
verify_mempool_transaction run, the structural check carries that same
limits value and the sigops ceiling handed to acceptance is exactly the
max_block_sigops of that value. -/
theorem claim_C9_limits_snapshot_consistent {View : Type} (ext : Externals View)
    (self : BackwardsCompatibleChainVerifier View) (block : IndexedBlock)
    (prevout_provider : TransactionOutputProvider) (height time : Nat)
    (transaction : Transaction) (limits : ConsensusLimits) :
    (∀ l, Event.preverify l ∈ (verify_block ext self block limits).2 → l = limits) ∧
    (∀ view block_number l,
      Event.accept view block_number l ∈ (verify_block ext self block limits).2 → l = limits) ∧
    (∀ l, TxEvent.preverify l
        ∈ (verify_mempool_transaction ext self prevout_provider height time transaction limits).2
      → l = limits) ∧
    (∀ os h t s, TxEvent.accept os h t s
        ∈ (verify_mempool_transaction ext self prevout_provider height time transaction limits).2
      → s = limits.max_block_sigops) := by
  refine ⟨?_, ?_, ?_, ?_⟩
  · intro l hl
    exact verify_block_events_limits ext self block limits _ hl
  · intro view bn l hl
    exact verify_block_events_limits ext self block limits _ hl
  · intro l hl
    simp only [verify_mempool_transaction] at hl
    cases hc : ext.tx_verifier_check { hash := ext.tx_hash transaction, raw := transaction } limits with
    | error e0 => rw [hc] at hl; simp at hl; exact hl
    | ok u => rw [hc] at hl; simp at hl; exact hl
  · intro os h t s hl
    simp only [verify_mempool_transaction] at hl
    cases hc : ext.tx_verifier_check { hash := ext.tx_hash transaction, raw := transaction } limits with
    | error e0 => rw [hc] at hl; simp at hl
    | ok u => rw [hc] at hl; simp at hl; exact hl.2.2.2

/-- Witness for C9: in concrete block and mempool runs, the recorded
acceptance events carry exactly the limits snapshot of the call (for the
mempool run, the sigops ceiling 20000 of the sample limits). -/
theorem claim_C9_witness :
    Event.accept () 6 sampleLimits
        ∈ (verify_block sampleExternals (sampleVerifier (Except.ok (BlockOrigin.CanonChain 6)))
            sampleBlock sampleLimits).2 ∧
    sampleLimits = sampleLimits ∧
    TxEvent.accept (DuplexTransactionOutputProvider sampleProvider NoopStore) 7 999 20000
        ∈ (verify_mempool_transaction sampleExternals
            (sampleVerifier (Except.ok (BlockOrigin.CanonChain 6)))
            sampleProvider 7 999 sampleTransaction sampleLimits).2 ∧
    (20000 : Nat) = sampleLimits.max_block_sigops := by
  have hmem1 : Event.accept () 6 sampleLimits
      ∈ (verify_block sampleExternals (sampleVerifier (Except.ok (BlockOrigin.CanonChain 6)))
          sampleBlock sampleLimits).2 := by decide
  have htrace : (verify_mempool_transaction sampleExternals
      (sampleVerifier (Except.ok (BlockOrigin.CanonChain 6)))
      sampleProvider 7 999 sampleTransaction sampleLimits).2
      = [TxEvent.preverify sampleLimits,
         TxEvent.accept (DuplexTransactionOutputProvider sampleProvider NoopStore) 7 999 20000] := rfl
  have hmem2 : TxEvent.accept (DuplexTransactionOutputProvider sampleProvider NoopStore) 7 999 20000
      ∈ (verify_mempool_transaction sampleExternals
          (sampleVerifier (Except.ok (BlockOrigin.CanonChain 6)))
          sampleProvider 7 999 sampleTransaction sampleLimits).2 := by
    rw [htrace]; simp
  exact ⟨hmem1,
    (claim_C9_limits_snapshot_consistent sampleExternals
      (sampleVerifier (Except.ok (BlockOrigin.CanonChain 6))) sampleBlock
      sampleProvider 7 999 sampleTransaction sampleLimits).2.1 () 6 sampleLimits hmem1,
    hmem2,
    (claim_C9_limits_snapshot_consistent sampleExternals
      (sampleVerifier (Except.ok (BlockOrigin.CanonChain 6))) sampleBlock
      sampleProvider 7 999 sampleTransaction sampleLimits).2.2.2 _ 7 999 20000 hmem2⟩

/-- C5: in verify_mempool_transaction the output resolver handed to
contextual acceptance is exactly the duplex of the caller-supplied prevout
provider with the no-op resolver — it is built from the provider alone, the
chain store contributes nothing to it, and since the fallback always
reports absence it behaves pointwise as the provider; consequently, with
the acceptance capability given by its spec-modelled prevout-resolution
contract, the call succeeds when the supplied provider resolves every
referenced output and fails with the unknown-reference error when the
provider resolves nothing and the transaction references some output. -/
theorem claim_C5_mempool_duplex_resolver {View : Type} (ext : Externals View)
    (self : BackwardsCompatibleChainVerifier View)
    (prevout_provider : TransactionOutputProvider)
    (height time : Nat) (transaction : Transaction) (limits : ConsensusLimits)
    (hpre : ext.tx_verifier_check { hash := ext.tx_hash transaction, raw := transaction } limits
      = Except.ok ())
    (hacc : ext.tx_acceptor_check = specMempoolTxAcceptCheck) :
    (∀ outpoint,
      DuplexTransactionOutputProvider prevout_provider NoopStore outpoint
        = prevout_provider outpoint) ∧
    ((verify_mempool_transaction ext self prevout_provider height time transaction limits).2
      = [TxEvent.preverify limits,
         TxEvent.accept (DuplexTransactionOutputProvider prevout_provider NoopStore)
           height time limits.max_block_sigops]) ∧
    ((∀ input ∈ transaction.inputs, (prevout_provider input.previous_output).isSome) →
      (verify_mempool_transaction ext self prevout_provider height time transaction limits).1
        = Except.ok ()) ∧
    ((∀ outpoint, prevout_provider outpoint = none) → transaction.inputs ≠ [] →
      (verify_mempool_transaction ext self prevout_provider height time transaction limits).1
        = Except.error TransactionError.UnknownReference) := by
  have hdup : ∀ outpoint,
      DuplexTransactionOutputProvider prevout_provider NoopStore outpoint
        = prevout_provider outpoint := by
    intro outpoint
    unfold DuplexTransactionOutputProvider NoopStore
    cases h : prevout_provider outpoint <;> simp
  refine ⟨hdup, ?_, ?_, ?_⟩
  · simp only [verify_mempool_transaction]
    rw [hpre]
  · intro hall
    simp only [verify_mempool_transaction]
    rw [hpre, hacc]
    simp only [specMempoolTxAcceptCheck, CanonTransaction.new]
    have hcond : transaction.inputs.all
        (fun input =>
          (DuplexTransactionOutputProvider prevout_provider NoopStore
            input.previous_output).isSome) = true := by
      rw [List.all_eq_true]
      intro input hin
      rw [hdup]
      exact hall input hin
    rw [if_pos hcond]
  · intro hnone hne
    simp only [verify_mempool_transaction]
    rw [hpre, hacc]
    simp only [specMempoolTxAcceptCheck, CanonTransaction.new]
    have hcond : transaction.inputs.all
        (fun input =>
          (DuplexTransactionOutputProvider prevout_provider NoopStore
            input.previous_output).isSome) = false := by
      cases htx : transaction.inputs with
      | nil => exact absurd htx hne
      | cons input rest =>
        simp only [List.all_cons, Bool.and_eq_false_iff]
        left
        rw [hdup, hnone]
        rfl
    rw [if_neg (by simp [hcond])]

/-- Witness for C5: a concrete mempool transaction whose only prevout is
resolved by the supplied provider (a mempool-local output) is accepted. -/
theorem claim_C5_witness :
    (verify_mempool_transaction
        { sampleExternals with tx_acceptor_check := specMempoolTxAcceptCheck }
        (sampleVerifier (Except.ok (BlockOrigin.CanonChain 6)))
        sampleProvider 7 999 sampleTransaction sampleLimits).1 = Except.ok () :=
  (claim_C5_mempool_duplex_resolver
    { sampleExternals with tx_acceptor_check := specMempoolTxAcceptCheck }
    (sampleVerifier (Except.ok (BlockOrigin.CanonChain 6)))
    sampleProvider 7 999 sampleTransaction sampleLimits rfl rfl).2.2.1 (by decide)

end PbtcVerification
